import Mathlib

/-
  Verification development for the VoiceApp speech-command program
  (src/VoiceApp.py).  The Python source is shallowly embedded below:
  pure helpers become Lean functions on `List Char` (Python strings),
  the GUI/threading state becomes explicit record passing, and the
  outcomes of external calls (microphone, Google API, Vosk decoder)
  become explicit environment values.
-/

namespace VoiceApp

/-! ## Phrase extraction (`extract_phrases`, VoiceApp.py lines 51-59)

`extract_phrases` runs spaCy over the text and a `PhraseMatcher` built
with `PhraseMatcher(nlp.vocab)` — i.e. with the default `ORTH` attribute,
which compares the verbatim (case-sensitive) text of tokens.  The spaCy
engine itself is an external library; it is embedded here by its
documented semantics:

* the tokenizer splits the text into maximal runs of non-whitespace
  characters (spaCy additionally splits punctuation inside such runs;
  the inputs relevant to this development are plain alphabetic words,
  on which the two tokenizers agree);
* `PhraseMatcher` with the default `ORTH` attribute reports a match for
  every contiguous token window whose verbatim token texts equal those
  of a registered pattern (identical patterns are collapsed by the
  matcher's trie, modelled by `dedup`); spans are enumerated by start
  position, left to right;
* `doc[start:end].text` is the literal slice of the original text from
  the first character of token `start` to the last character of token
  `end - 1`, inner whitespace preserved.
-/

/-- Whitespace test used by both the tokenizer model and Python `str.strip`. -/
def wsp (c : Char) : Bool := c.isWhitespace

/-- Python `str.strip()`: remove leading and trailing whitespace. -/
def stripChars (s : List Char) : List Char :=
  ((s.dropWhile wsp).reverse.dropWhile wsp).reverse

/-- Start indices of the maximal non-whitespace runs of the text.
`prevWs` records whether the previous character was whitespace (true at
the start of the text), `i` is the index of the current character. -/
def tokenStartsAux : List Char → Bool → Nat → List Nat
  | [], _, _ => []
  | c :: rest, prevWs, i =>
    if wsp c then tokenStartsAux rest true (i + 1)
    else if prevWs then i :: tokenStartsAux rest false (i + 1)
    else tokenStartsAux rest false (i + 1)

/-- Start indices of all tokens of the text. -/
def tokenStarts (s : List Char) : List Nat := tokenStartsAux s true 0

/-- The token beginning at index `i`: the non-whitespace run starting there. -/
def tokenText (s : List Char) (i : Nat) : List Char :=
  (s.drop i).takeWhile (fun c => !wsp c)

/-- Length (in characters) of the token beginning at index `i`. -/
def tokenLen (s : List Char) (i : Nat) : Nat := (tokenText s i).length

/-- The token texts of the document built from `s` (model of the tokens
of `nlp(s)`). -/
def docTokens (s : List Char) : List (List Char) :=
  (tokenStarts s).map (tokenText s)

/-- Model of `doc[a : a+k].text`: the literal slice of the source text
from the first character of token `a` through the last character of
token `a + k - 1` (empty when the window is empty). -/
def spanText (s : List Char) (starts : List Nat) (a k : Nat) : List Char :=
  match starts[a]?, ((starts.drop a).take k).getLast? with
  | some i, some j => (s.drop i).take (j + tokenLen s j - i)
  | _, _ => []

/-- Model of `matcher(doc)` with the patterns `pats` (token-text lists):
all windows of consecutive document tokens whose verbatim texts equal a
pattern, as `(start, end)` pairs, enumerated by start position. -/
def matchSpans (docToks : List (List Char)) (pats : List (List (List Char))) :
    List (Nat × Nat) :=
  (List.range docToks.length).flatMap fun a =>
    pats.filterMap fun p =>
      if (docToks.drop a).take p.length = p then some (a, a + p.length) else none

/-- The patterns registered on the matcher:
`[nlp.make_doc(phrase.strip()) for phrase in target_phrases if phrase.strip()]`,
compared by token sequence (`ORTH`), identical patterns collapsed. -/
def mkPatterns (target_phrases : List (List Char)) : List (List (List Char)) :=
  ((target_phrases.filter fun p => stripChars p ≠ []).map
    fun p => docTokens (stripChars p)).dedup

/-- `extract_phrases(text, target_phrases)` (VoiceApp.py lines 51-59):
returns `[doc[start:end].text for match_id, start, end in matches]`. -/
def extract_phrases (text : List Char) (target_phrases : List (List Char)) :
    List (List Char) :=
  (matchSpans (docTokens text) (mkPatterns target_phrases)).map
    fun m => spanText text (tokenStarts text) m.1 (m.2 - m.1)

/-! ## Key-phrase processing (`process_text`, VoiceApp.py lines 119-130) -/

/-- Python `str.split(",")`: split on every comma, keeping empty pieces. -/
def splitComma : List Char → List (List Char)
  | [] => [[]]
  | c :: rest =>
    if c = ',' then [] :: splitComma rest
    else
      match splitComma rest with
      | [] => [[c]]
      | p :: ps => (c :: p) :: ps

/-- Python `", ".join(phrases)`. -/
def joinComma : List (List Char) → List Char
  | [] => []
  | [p] => p
  | p :: rest => p ++ ", ".data ++ joinComma rest

/-- The target phrase list computed by `process_text` from the phrase
entry's contents: `[p.strip() for p in user_input.split(",")]` when
`user_input.strip()` is truthy (non-empty), else `["safety reset"]`. -/
def target_phrases_of (user_input : List Char) : List (List Char) :=
  if stripChars user_input ≠ [] then (splitComma user_input).map stripChars
  else ["safety reset".data]

/-- The single line `process_text` appends to the key-phrase text box:
`"Key Phrases: " + ", ".join(phrases) + "\n"` when phrases were found,
otherwise `"No key phrases detected.\n"`. -/
def process_text (user_input text : List Char) : List Char :=
  let phrases := extract_phrases text (target_phrases_of user_input)
  if phrases ≠ [] then "Key Phrases: ".data ++ joinComma phrases ++ ['\n']
  else "No key phrases detected.\n".data

/-! ## Model loading (`load_vosk_model`, VoiceApp.py lines 21-39)

The loader's observable state are the module-level globals `vosk_model`
and `is_vosk_loaded`, plus the persistent status label.  `loadAttempts`
counts invocations of the `VoskModel(...)` constructor — one "load
attempt" in the spec's sense.  Whether a given constructor invocation
succeeds or raises is an environment input (`LoadOutcome`). -/

structure LoaderState where
  /-- `VoskModel is not None`: the vosk import succeeded. -/
  voskAvailable : Bool
  /-- the global `vosk_model` (None ↦ `none`, a loaded handle ↦ `some ()`). -/
  voskModel : Option Unit
  /-- the global `is_vosk_loaded`. -/
  isVoskLoaded : Bool
  /-- number of `VoskModel(...)` constructor invocations so far. -/
  loadAttempts : Nat
  /-- text of `persistent_status_label`. -/
  persistentStatus : String
deriving DecidableEq, Repr

/-- Outcome of one `VoskModel(path)` constructor invocation: success, or
an exception with message `e`. -/
inductive LoadOutcome where
  | success
  | failure (e : String)
deriving DecidableEq, Repr

/-- The state at process start: globals `vosk_model = None`,
`is_vosk_loaded = False`, label `"Initializing..."`. -/
def initLoaderState (avail : Bool) : LoaderState :=
  { voskAvailable := avail, voskModel := none, isVoskLoaded := false,
    loadAttempts := 0, persistentStatus := "Initializing..." }

/-- `load_vosk_model()` (lines 21-39), as a transition on the loader
state given the outcome of the constructor invocation it performs.
Note the function has no reentrance guard: it never reads
`is_vosk_loaded` before loading. -/
def load_vosk_model (outcome : LoadOutcome) (s : LoaderState) : LoaderState :=
  if s.voskAvailable then
    match outcome with
    | .success =>
      { s with loadAttempts := s.loadAttempts + 1, voskModel := some (),
               isVoskLoaded := true,
               persistentStatus := "Offline loaded | Online available" }
    | .failure e =>
      -- `vosk_model = VoskModel(...)` raised: neither global is assigned.
      { s with loadAttempts := s.loadAttempts + 1,
               persistentStatus := "Error loading offline model: " ++ e }
  else { s with persistentStatus := "Vosk not installed." }

/-! ## Cycle start (`start_listening_thread`, lines 61-64; `listen_button`,
lines 190-191)

`start_listening_thread` unconditionally creates and starts a new daemon
thread running `listen`; it consults no state, and the button that
invokes it (line 190) is never disabled.  The model tracks the number of
live `listen` cycles: each call adds one, whatever the current count. -/

def start_listening_thread (inFlight : Nat) : Nat := inFlight + 1

/-- `k` successive activations of the listen button. -/
def repeatedClicks : Nat → Nat → Nat
  | 0, n => n
  | k + 1, n => repeatedClicks k (start_listening_thread n)

/-! ## The recognition cycle (`listen`, VoiceApp.py lines 66-117)

External calls are embedded as an environment: the capture phase may
raise before or after the `"Listening..."` status is shown, the Google
call returns text or raises, and the Vosk decoder is a function of the
(resampled) audio fed to it.  Python exceptions relevant to the `except`
clauses become `PyErr`. -/

/-- A captured waveform with its rate/width metadata. -/
structure AudioSample where
  rate : Nat
  width : Nat
  content : String
deriving DecidableEq, Repr

/-- `audio.get_raw_data(convert_rate=r, convert_width=w)`: same content,
resampled to rate `r` and sample width `w`. -/
def get_raw_data (a : AudioSample) (r w : Nat) : AudioSample :=
  { a with rate := r, width := w }

/-- Exceptions distinguished by `listen`'s handlers: `sr.RequestError`,
`sr.UnknownValueError`, and any other `Exception` with message `msg`. -/
inductive PyErr where
  | requestError
  | unknownValueError
  | other (msg : String)
deriving DecidableEq, Repr

/-- Outcome of the capture phase (lines 74-78).  `calibFail`: an
exception before the `"Listening..."` status is set (device open or
ambient-noise calibration); `listenFail`: an exception in
`recognizer.listen` after it; `ok`: a recording was produced. -/
inductive CaptureResult where
  | calibFail (e : PyErr)
  | listenFail (e : PyErr)
  | ok (audio : AudioSample)
deriving DecidableEq, Repr

/-- Terminal output of the Vosk decoder for one utterance: whether
`AcceptWaveform` returned true, and the optional `"text"` fields of the
`Result()` and `FinalResult()` JSON documents. -/
structure VoskDecode where
  acceptOk : Bool
  resultText : Option (List Char)
  finalText : Option (List Char)
deriving DecidableEq, Repr

/-- The best-guess text `listen` extracts from the decoder (lines 88-99):
`Result()["text"]` when `AcceptWaveform` accepted the full waveform,
otherwise `FinalResult()["text"]`; a missing field defaults to `""`. -/
def terminalText (v : VoskDecode) : List Char :=
  if v.acceptOk then v.resultText.getD [] else v.finalText.getD []

/-- Environment of one cycle: outcomes of all external calls. -/
structure CycleEnv where
  capture : CaptureResult
  /-- decoder behaviour as a function of the raw audio fed to it. -/
  vosk : AudioSample → VoskDecode
  /-- an exception raised by the Vosk decode phase, if any. -/
  voskErr : Option PyErr
  /-- `recognizer.recognize_google(audio)`: text, or an exception. -/
  online : Except PyErr String

/-- Observable program state touched by a cycle: the mode toggle, the
loader globals, the phrase entry, the two text sinks, the ephemeral
status history and the progress bar. `ephemeralLog` records every
`ephemeral_status_label.configure` call as `(text, fg_color)`. -/
structure AppState where
  toggleOffline : Bool
  isVoskLoaded : Bool
  voskModel : Option Unit
  phraseEntry : List Char
  transcript : List (List Char)
  keyPhraseLog : List (List Char)
  ephemeralLog : List (String × String)
  progress : Bool

/-- Status text and colour set by each `except` handler (lines 110-115). -/
def errStatus : PyErr → String × String
  | .requestError => ("API unavailable", "red")
  | .unknownValueError => ("Could not understand audio", "red")
  | .other msg => ("Error: " ++ msg, "red")

/-- The tail of every successful cycle (lines 106-108 and `process_text`):
append the transcript entry `text + "\n"`, show the success status, append
the key-phrase line, and (finally clause) stop the progress bar. -/
def successTail (s : AppState) (text : List Char) : AppState :=
  { s with transcript := s.transcript ++ [text ++ ['\n']],
           ephemeralLog := s.ephemeralLog ++ [("Transcription successful", "green")],
           keyPhraseLog := s.keyPhraseLog ++ [process_text s.phraseEntry text],
           progress := false }

/-- `listen()` (VoiceApp.py lines 66-117) as a function of the cycle
environment and the program state.  The `finally` clause is reflected in
`progress := false` on every path. -/
def listen (env : CycleEnv) (s : AppState) : AppState :=
  let s := { s with progress := true }
  match env.capture with
  | .calibFail e =>
    { s with ephemeralLog := s.ephemeralLog ++ [errStatus e], progress := false }
  | .listenFail e =>
    { s with ephemeralLog := s.ephemeralLog ++ [("Listening...", "blue"), errStatus e],
             progress := false }
  | .ok audio =>
    let s := { s with ephemeralLog := s.ephemeralLog ++ [("Listening...", "blue")] }
    if s.toggleOffline then
      if !s.isVoskLoaded || s.voskModel = none then
        { s with ephemeralLog :=
                   s.ephemeralLog ++ [("Offline model not loaded yet", "red")],
                 progress := false }
      else
        match env.voskErr with
        | some e =>
          { s with ephemeralLog := s.ephemeralLog ++ [errStatus e], progress := false }
        | none =>
          successTail s (terminalText (env.vosk (get_raw_data audio 16000 2)))
    else
      match env.online with
      | .error e =>
        { s with ephemeralLog := s.ephemeralLog ++ [errStatus e], progress := false }
      | .ok text => successTail s text.data

/-- What §7's propagation policy promises after a cycle that raised `e`:
both sinks untouched, progress cleared (controller back to Idle), and the
status history extended by exactly the handler's message for `e`, possibly
preceded by the informational `"Listening..."` entry. -/
def errorOutcome (s s' : AppState) (e : PyErr) : Prop :=
  s'.transcript = s.transcript ∧ s'.keyPhraseLog = s.keyPhraseLog ∧
    s'.progress = false ∧
    (s'.ephemeralLog = s.ephemeralLog ++ [errStatus e] ∨
      s'.ephemeralLog = s.ephemeralLog ++ [("Listening...", "blue"), errStatus e])

/-! ## Helper lemmas about the matcher -/

theorem mem_matchSpans_iff (D : List (List Char)) (pats : List (List (List Char)))
    (a b : Nat) :
    (a, b) ∈ matchSpans D pats ↔
      a < D.length ∧ ∃ p, p ∈ pats ∧ (D.drop a).take p.length = p ∧ b = a + p.length := by
  unfold matchSpans
  constructor
  · intro h
    rcases List.mem_flatMap.mp h with ⟨a', ha', hx⟩
    rcases List.mem_filterMap.mp hx with ⟨p, hp, hpe⟩
    by_cases hc : (D.drop a').take p.length = p
    · rw [if_pos hc] at hpe
      simp only [Option.some.injEq, Prod.mk.injEq] at hpe
      obtain ⟨rfl, rfl⟩ := hpe
      exact ⟨List.mem_range.mp ha', p, hp, hc, rfl⟩
    · rw [if_neg hc] at hpe
      exact absurd hpe (Option.noConfusion)
  · rintro ⟨ha, p, hp, hc, rfl⟩
    exact List.mem_flatMap.mpr ⟨a, List.mem_range.mpr ha,
      List.mem_filterMap.mpr ⟨p, hp, by rw [if_pos hc]⟩⟩

theorem mem_mkPatterns_iff (tps : List (List Char)) (q : List (List Char)) :
    q ∈ mkPatterns tps ↔
      ∃ p, p ∈ tps ∧ stripChars p ≠ [] ∧ q = docTokens (stripChars p) := by
  unfold mkPatterns
  rw [List.mem_dedup]
  constructor
  · intro h
    rcases List.mem_map.mp h with ⟨p, hp, rfl⟩
    rcases List.mem_filter.mp hp with ⟨hmem, hne⟩
    exact ⟨p, hmem, by simpa using hne, rfl⟩
  · rintro ⟨p, hp, hne, rfl⟩
    exact List.mem_map.mpr ⟨p, List.mem_filter.mpr ⟨hp, by simpa using hne⟩, rfl⟩

/-- With no patterns registered, the matcher finds nothing. -/
theorem matchSpans_nil (D : List (List Char)) : matchSpans D [] = [] := by
  apply List.eq_nil_iff_forall_not_mem.mpr
  intro x hx
  rcases List.mem_flatMap.mp hx with ⟨a, _, hx⟩
  rcases List.mem_filterMap.mp hx with ⟨p, hp, _⟩
  exact absurd hp (List.not_mem_nil p)

/-- Every string `spanText` produces is a literal slice of the source
text: the source splits as `l ++ spanText .. ++ r`. -/
theorem spanText_isSlice (s : List Char) (starts : List Nat) (a k : Nat) :
    ∃ l r, s = l ++ spanText s starts a k ++ r := by
  unfold spanText
  cases hi : starts[a]? with
  | none => exact ⟨[], s, rfl⟩
  | some i =>
    cases hj : ((starts.drop a).take k).getLast? with
    | none => exact ⟨[], s, rfl⟩
    | some j =>
      refine ⟨s.take i, (s.drop i).drop (j + tokenLen s j - i), ?_⟩
      rw [List.append_assoc, List.take_append_drop, List.take_append_drop]

/-- Every pair produced by the matcher at outer index `a` has first
component `a`. -/
theorem matchSpans_inner_fst (D : List (List Char)) (pats : List (List (List Char)))
    (a : Nat) (x : Nat × Nat)
    (hx : x ∈ pats.filterMap fun p =>
      if (D.drop a).take p.length = p then some (a, a + p.length) else none) :
    x.1 = a := by
  rcases List.mem_filterMap.mp hx with ⟨p, _, hpe⟩
  by_cases hc : (D.drop a).take p.length = p
  · rw [if_pos hc] at hpe
    simp only [Option.some.injEq] at hpe
    rw [← hpe]
  · rw [if_neg hc] at hpe
    exact absurd hpe (Option.noConfusion)

/-- The matcher enumerates spans left to right: the start positions of
the reported matches are weakly increasing. -/
theorem matchSpans_fst_pairwise (D : List (List Char)) (pats : List (List (List Char))) :
    ((matchSpans D pats).map Prod.fst).Pairwise (· ≤ ·) := by
  rw [List.pairwise_map]
  unfold matchSpans
  rw [List.pairwise_flatMap]
  constructor
  · intro a _
    rw [List.pairwise_iff_forall_sublist]
    intro x y hsub
    have hx := matchSpans_inner_fst D pats a x (hsub.subset (by simp))
    have hy := matchSpans_inner_fst D pats a y (hsub.subset (by simp))
    rw [hx, hy]
  · apply (List.pairwise_lt_range _).imp_of_mem
    intro a b _ _ hab
    intro x hx y hy
    rw [matchSpans_inner_fst D pats a x hx, matchSpans_inner_fst D pats b y hy]
    exact Nat.le_of_lt hab

/-! ## Claim theorems -/

/-- C1 counterexample: the matcher is case-sensitive (spaCy
`PhraseMatcher` with its default `ORTH` attribute compares verbatim token
text), so the text "Safety Reset" yields no match for the target phrase
"safety reset", while the identically-cased text does match. -/
theorem mixed_case_phrase_not_matched :
    extract_phrases "Safety Reset".data ["safety reset".data] = [] ∧
      extract_phrases "safety reset".data ["safety reset".data] =
        ["safety reset".data] := by decide

/-- C1 (amended): the phrase matcher reports a match at span `(a, b)`
exactly when the window of consecutive document tokens starting at token
`a` equals, verbatim and case-sensitively, the token sequence of some
non-blank (after stripping) target phrase, with `b` the corresponding
window end; in particular a text containing "Safety Reset" does not
match the target phrase "safety reset". -/
theorem matchSpans_exact_token_match_iff (text : List Char)
    (tps : List (List Char)) (a b : Nat) :
    (a, b) ∈ matchSpans (docTokens text) (mkPatterns tps) ↔
      a < (docTokens text).length ∧
        ∃ p, p ∈ tps ∧ stripChars p ≠ [] ∧
          ((docTokens text).drop a).take (docTokens (stripChars p)).length =
            docTokens (stripChars p) ∧
          b = a + (docTokens (stripChars p)).length := by
  rw [mem_matchSpans_iff]
  constructor
  · rintro ⟨ha, q, hq, hc, rfl⟩
    rcases (mem_mkPatterns_iff tps q).mp hq with ⟨p, hp, hne, rfl⟩
    exact ⟨ha, p, hp, hne, hc, rfl⟩
  · rintro ⟨ha, p, hp, hne, hc, rfl⟩
    exact ⟨ha, docTokens (stripChars p),
      (mem_mkPatterns_iff tps _).mpr ⟨p, hp, hne, rfl⟩, hc, rfl⟩

/-- C1 witness: the characterization applied at a concrete input — the
lower-case occurrence of "safety reset" in "safety reset now" is
reported as the span `(0, 2)`. -/
theorem matchSpans_exact_token_match_instance :
    (0, 2) ∈ matchSpans (docTokens "safety reset now".data)
      (mkPatterns ["safety reset".data]) :=
  (matchSpans_exact_token_match_iff "safety reset now".data
      ["safety reset".data] 0 2).mpr
    ⟨by decide, "safety reset".data, by decide, by decide, by decide, by decide⟩

/-- C2 counterexample: invoking the start-cycle operation while one cycle
is already in flight starts a second concurrent cycle (two in flight),
rather than being a no-op. -/
theorem start_listening_thread_while_busy_not_noop :
    start_listening_thread 1 = 2 ∧ (2 : Nat) ≠ 1 := by decide

/-- C2 (amended): `start_listening_thread` consults no state before
spawning (and the listen button is never disabled), so each of `k`
activations starts one more concurrent cycle: after `k` clicks there are
`n + k` cycles in flight, however many were already running. -/
theorem every_click_starts_new_cycle (k n : Nat) :
    repeatedClicks k n = n + k := by
  induction k generalizing n with
  | zero => rfl
  | succ k ih =>
    show repeatedClicks k (start_listening_thread n) = n + (k + 1)
    rw [ih]
    show n + 1 + k = n + (k + 1)
    omega

/-- C6: every string returned by `extract_phrases` is a literal
exact-casing slice of the input text, the reported match spans are in
left-to-right order of their start positions, and every reported span's
token window equals the (stripped) token sequence of some target
phrase. -/
theorem extract_phrases_exact_substrings_ordered (text : List Char)
    (tps : List (List Char)) (m : List Char)
    (hm : m ∈ extract_phrases text tps) :
    (∃ l r, text = l ++ m ++ r) ∧
      ((matchSpans (docTokens text) (mkPatterns tps)).map Prod.fst).Pairwise (· ≤ ·) ∧
      ∀ ab ∈ matchSpans (docTokens text) (mkPatterns tps),
        ∃ p, p ∈ tps ∧ stripChars p ≠ [] ∧
          ((docTokens text).drop ab.1).take (ab.2 - ab.1) =
            docTokens (stripChars p) := by
  refine ⟨?_, matchSpans_fst_pairwise _ _, ?_⟩
  · unfold extract_phrases at hm
    rcases List.mem_map.mp hm with ⟨ab, _, rfl⟩
    exact spanText_isSlice text (tokenStarts text) ab.1 (ab.2 - ab.1)
  · rintro ⟨a, b⟩ hab
    rcases (mem_matchSpans_iff _ _ a b).mp hab with ⟨_, q, hq, hc, rfl⟩
    rcases (mem_mkPatterns_iff tps q).mp hq with ⟨p, hp, hne, rfl⟩
    refine ⟨p, hp, hne, ?_⟩
    simpa [Nat.add_sub_cancel_left] using hc

/-- C6 witness: the theorem applied to the match of "safety reset" inside
"do a safety reset now" — the returned string is a literal slice. -/
theorem extract_phrases_exact_substrings_ordered_instance :
    ∃ l r, "do a safety reset now".data = l ++ "safety reset".data ++ r :=
  (extract_phrases_exact_substrings_ordered "do a safety reset now".data
    ["safety reset".data] "safety reset".data (by decide)).1

/-- C7: extraction with an empty phrase list, or with a list whose
entries are all empty or whitespace-only (stripped and discarded), yields
an empty result for every text. -/
theorem extract_phrases_empty_phrase_lists (text : List Char) :
    extract_phrases text [] = [] ∧
      extract_phrases text ["".data, "  ".data] = [] := by
  constructor
  · unfold extract_phrases
    rw [show mkPatterns [] = [] by decide, matchSpans_nil, List.map_nil]
  · unfold extract_phrases
    rw [show mkPatterns ["".data, "  ".data] = [] by decide, matchSpans_nil,
      List.map_nil]

/-- C8: when the operator's phrase input strips to the empty string, the
target phrase list defaults to the single built-in phrase
"safety reset", so the transcript "safety reset engaged" still yields
the match "safety reset" and the corresponding key-phrase line. -/
theorem blank_input_defaults_safety_reset (u : List Char)
    (h : stripChars u = []) :
    target_phrases_of u = ["safety reset".data] ∧
      extract_phrases "safety reset engaged".data (target_phrases_of u) =
        ["safety reset".data] ∧
      process_text u "safety reset engaged".data =
        "Key Phrases: safety reset\n".data := by
  have ht : target_phrases_of u = ["safety reset".data] := by
    unfold target_phrases_of
    rw [if_neg (by simp [h])]
  refine ⟨ht, ?_, ?_⟩
  · rw [ht]; decide
  · unfold process_text
    rw [ht]
    decide

/-- C8 witness: the empty phrase input. -/
theorem blank_input_defaults_safety_reset_instance :
    target_phrases_of "".data = ["safety reset".data] ∧
      extract_phrases "safety reset engaged".data (target_phrases_of "".data) =
        ["safety reset".data] ∧
      process_text "".data "safety reset engaged".data =
        "Key Phrases: safety reset\n".data :=
  blank_input_defaults_safety_reset "".data (by decide)

/-- C10: a phrase input that is non-blank but whose comma-separated
entries all strip to empty (here " , , ") does not trigger the built-in
default list: the parsed entries are three empty strings, the matcher
registers no pattern and finds no match, and the key-phrase line is
"No key phrases detected." for every transcript. -/
theorem commas_only_input_no_default :
    target_phrases_of " , , ".data = [[], [], []] ∧
      ∀ text : List Char,
        matchSpans (docTokens text) (mkPatterns (target_phrases_of " , , ".data)) =
            [] ∧
          process_text " , , ".data text = "No key phrases detected.\n".data := by
  have hp : mkPatterns (target_phrases_of " , , ".data) = [] := by decide
  refine ⟨by decide, fun text => ⟨?_, ?_⟩⟩
  · rw [hp, matchSpans_nil]
  · unfold process_text extract_phrases
    rw [hp, matchSpans_nil, List.map_nil]
    decide

/-! ## Concrete fixtures shared by the session-cycle witnesses -/

/-- A concrete captured sample (44.1 kHz, 16-bit). -/
def audio0 : AudioSample := { rate := 44100, width := 2, content := "u" }

/-- The program state right after GUI construction: online mode, model
not loaded, the phrase entry holding its pre-filled default (line 163),
both sinks empty. -/
def baseState : AppState :=
  { toggleOffline := false, isVoskLoaded := false, voskModel := none,
    phraseEntry := "safety, start, stop, data".data, transcript := [],
    keyPhraseLog := [], ephemeralLog := [], progress := false }

/-- `baseState` switched to offline mode with the model loaded. -/
def readyState : AppState :=
  { baseState with toggleOffline := true, isVoskLoaded := true,
                   voskModel := some () }

/-- A concrete cycle environment: capture succeeds, the decoder accepts
the waveform in one pass, and the online service raises
`sr.RequestError`. -/
def env0 : CycleEnv :=
  { capture := .ok audio0,
    vosk := fun _ => ⟨true, some "safety reset".data, none⟩,
    voskErr := none, online := .error .requestError }

/-- C3: a cycle run in Offline mode while the model is not ready fails
fast: the red "Offline model not loaded yet" status is reported, nothing
is appended to the transcript (or key-phrase) sink, and the progress
indicator is cleared. -/
theorem offline_not_ready_fails_fast (s : AppState) (env : CycleEnv)
    (audio : AudioSample) (hmode : s.toggleOffline = true)
    (hnr : s.isVoskLoaded = false ∨ s.voskModel = none)
    (hcap : env.capture = .ok audio) :
    (listen env s).transcript = s.transcript ∧
      (listen env s).keyPhraseLog = s.keyPhraseLog ∧
      (listen env s).ephemeralLog = s.ephemeralLog ++
        [("Listening...", "blue"), ("Offline model not loaded yet", "red")] ∧
      (listen env s).progress = false := by
  unfold listen
  rw [hcap]
  rcases hnr with h | h <;> simp [hmode, h]

/-- C3 witness: the initial (model not loaded) state switched to offline
mode. -/
theorem offline_not_ready_fails_fast_instance :
    (listen env0 { baseState with toggleOffline := true }).transcript =
        { baseState with toggleOffline := true }.transcript ∧
      (listen env0 { baseState with toggleOffline := true }).keyPhraseLog =
        { baseState with toggleOffline := true }.keyPhraseLog ∧
      (listen env0 { baseState with toggleOffline := true }).ephemeralLog =
        { baseState with toggleOffline := true }.ephemeralLog ++
          [("Listening...", "blue"), ("Offline model not loaded yet", "red")] ∧
      (listen env0 { baseState with toggleOffline := true }).progress = false :=
  offline_not_ready_fails_fast { baseState with toggleOffline := true } env0
    audio0 rfl (Or.inl rfl) rfl

/-- C4: every error raised inside a background cycle — during capture,
during the online request, or during the offline decode — is caught at
the cycle boundary and converted into exactly the corresponding
ephemeral status message, with both sinks untouched and the progress
indicator cleared; in particular an online `sr.RequestError` yields the
red ephemeral status "API unavailable", leaves the transcript unchanged
and returns the controller to Idle. -/
theorem cycle_errors_caught_at_boundary (s : AppState) (env : CycleEnv) :
    (∀ e, env.capture = .calibFail e ∨ env.capture = .listenFail e →
      errorOutcome s (listen env s) e) ∧
    (∀ e audio, s.toggleOffline = false → env.capture = .ok audio →
      env.online = .error e → errorOutcome s (listen env s) e) ∧
    (∀ e audio, s.toggleOffline = true → s.isVoskLoaded = true →
      s.voskModel = some () → env.capture = .ok audio →
      env.voskErr = some e → errorOutcome s (listen env s) e) ∧
    (∀ audio, s.toggleOffline = false → env.capture = .ok audio →
      env.online = .error .requestError →
      (listen env s).ephemeralLog = s.ephemeralLog ++
          [("Listening...", "blue"), ("API unavailable", "red")] ∧
        (listen env s).transcript = s.transcript ∧
        (listen env s).keyPhraseLog = s.keyPhraseLog ∧
        (listen env s).progress = false) := by
  refine ⟨?_, ?_, ?_, ?_⟩
  · rintro e (hcap | hcap) <;>
      · unfold listen
        rw [hcap]
        simp [errorOutcome]
  · intro e audio hmode hcap hon
    unfold listen
    rw [hcap]
    simp [hmode, hon, errorOutcome]
  · intro e audio hmode hl hm hcap hv
    unfold listen
    rw [hcap]
    simp [hmode, hl, hm, hv, errorOutcome]
  · intro audio hmode hcap hon
    unfold listen
    rw [hcap]
    simp [hmode, hon, errStatus]

/-- C4 witness: the `sr.RequestError` scenario at the initial state. -/
theorem cycle_errors_caught_at_boundary_instance :
    (listen env0 baseState).ephemeralLog = baseState.ephemeralLog ++
        [("Listening...", "blue"), ("API unavailable", "red")] ∧
      (listen env0 baseState).transcript = baseState.transcript ∧
      (listen env0 baseState).keyPhraseLog = baseState.keyPhraseLog ∧
      (listen env0 baseState).progress = false :=
  (cycle_errors_caught_at_boundary baseState env0).2.2.2 audio0 rfl rfl rfl

/-- C5 counterexample: calling `load_vosk_model` twice from the initial
state performs two load attempts, not one — the second call is not a
no-op. -/
theorem double_load_two_attempts :
    (load_vosk_model .success
        (load_vosk_model .success (initLoaderState true))).loadAttempts = 2 ∧
      (2 : Nat) ≠ 1 ∧
      load_vosk_model .success (load_vosk_model .success (initLoaderState true)) ≠
        load_vosk_model .success (initLoaderState true) := by decide

/-- C5 (amended): `load_vosk_model` has no reentrance guard — whenever
vosk is importable, every call performs one load attempt, so two calls
perform two (in the program it is invoked exactly once, at startup).
The loaded state, however, only moves forward: once `is_vosk_loaded` is
true or `vosk_model` is set, no further call reverts them, whatever its
outcome. -/
theorem load_attempts_per_call_and_monotone (s : LoaderState)
    (o₁ o₂ : LoadOutcome) :
    (s.voskAvailable = true →
      (load_vosk_model o₂ (load_vosk_model o₁ s)).loadAttempts =
        s.loadAttempts + 2) ∧
    (s.isVoskLoaded = true →
      ∀ o : LoadOutcome, (load_vosk_model o s).isVoskLoaded = true) ∧
    (s.voskModel = some () →
      ∀ o : LoadOutcome, (load_vosk_model o s).voskModel = some ()) := by
  refine ⟨?_, ?_, ?_⟩
  · intro h
    cases o₁ <;> cases o₂ <;> simp [load_vosk_model, h]
  · intro h o
    cases o <;> cases ha : s.voskAvailable <;> simp [load_vosk_model, ha, h]
  · intro h o
    cases o <;> cases ha : s.voskAvailable <;> simp [load_vosk_model, ha, h]

/-- C5 witness: from a state in which one successful load already
happened, a failing call and a further call still add one attempt each
and never clear the loaded flag or the model handle. -/
theorem load_attempts_per_call_and_monotone_instance :
    ((load_vosk_model .success (load_vosk_model (.failure "x")
        (load_vosk_model .success (initLoaderState true)))).loadAttempts =
      (load_vosk_model .success (initLoaderState true)).loadAttempts + 2) ∧
      (load_vosk_model (.failure "x")
        (load_vosk_model .success (initLoaderState true))).isVoskLoaded = true ∧
      (load_vosk_model (.failure "x")
        (load_vosk_model .success (initLoaderState true))).voskModel = some () := by
  have h := load_attempts_per_call_and_monotone
    (load_vosk_model .success (initLoaderState true)) (.failure "x") .success
  exact ⟨h.1 (by decide), h.2.1 (by decide) (.failure "x"),
    h.2.2 (by decide) (.failure "x")⟩

/-- C9: in Offline mode with the model ready, the audio fed to the Vosk
recognizer is the captured sample resampled to 16 kHz / 16-bit, the
transcript entry appended is the best-guess `"text"` of the decoder's
terminal result, and the one-pass (`AcceptWaveform` true) and finalize
(`AcceptWaveform` false) completion paths produce identical program
states whenever they carry the same terminal text. -/
theorem offline_decode_resample_and_terminal_text (s : AppState)
    (env : CycleEnv) (audio : AudioSample) (hmode : s.toggleOffline = true)
    (hl : s.isVoskLoaded = true) (hm : s.voskModel = some ())
    (hcap : env.capture = .ok audio) (hne : env.voskErr = none) :
    ((get_raw_data audio 16000 2).rate = 16000 ∧
      (get_raw_data audio 16000 2).width = 2) ∧
    (listen env s).transcript = s.transcript ++
        [terminalText (env.vosk (get_raw_data audio 16000 2)) ++ ['\n']] ∧
    ∀ (t : List Char) (o₁ o₂ : Option (List Char)),
      listen { env with vosk := fun _ => ⟨true, some t, o₁⟩ } s =
        listen { env with vosk := fun _ => ⟨false, o₂, some t⟩ } s := by
  refine ⟨⟨rfl, rfl⟩, ?_, ?_⟩
  · unfold listen
    rw [hcap]
    simp [hmode, hl, hm, hne, successTail]
  · intro t o₁ o₂
    unfold listen
    rw [hcap]
    simp [hmode, hl, hm, hne, terminalText]

/-- C9 witness: a ready offline state with a decoder that accepts the
waveform in one pass. -/
theorem offline_decode_resample_and_terminal_text_instance :
    (listen env0 readyState).transcript = readyState.transcript ++
        [terminalText (env0.vosk (get_raw_data audio0 16000 2)) ++ ['\n']] :=
  (offline_decode_resample_and_terminal_text readyState env0 audio0
    rfl rfl rfl rfl rfl).2.1

end VoiceApp
